import Mathlib

/-!
Verification development for a small browser-automation command server
(`src/main.ts`): a command dispatcher (`handleToolCall`) over a lazily
created browser session (`ensureBrowser`), a log buffer fed by console
events, a named screenshot store, and a resource adapter answering
list/read queries.

The embedding is a shallow state-passing translation of the source:
  - the mutable globals `browser`, `page`, `consoleLogs`, `screenshots`
    become fields of `ServerState`, threaded explicitly;
  - the external automation engine is an opaque `Driver` record whose
    operations return `Except String` results (a `.error` models a
    rejected promise);
  - a raised exception that escapes a function is modelled by the
    function returning `Except.error`, while the state component records
    the global mutations performed before the throw;
  - a ghost `trace` field records which driver operations were invoked,
    so that claims about "no engine launch" are directly expressible.

A second, tiny interleaving model (`coStep`/`coRun`) embeds only
`ensureBrowser`, with its `await` points made explicit, to settle the
concurrency claim about first-use session creation.
-/

/-! ## Command catalog (TOOLS, src/main.ts lines 21-125) -/

structure InputSchemaField where
  fieldName : String
  fieldType : String
deriving DecidableEq

structure InputSchema where
  properties : List InputSchemaField
  required : List String
deriving DecidableEq

structure Tool where
  name : String
  description : String
  inputSchema : InputSchema
deriving DecidableEq

def TOOLS : List Tool :=
  [ { name := "playwright_navigate",
      description := "Navigate to a URL",
      inputSchema := { properties := [⟨"url", "string"⟩], required := ["url"] } },
    { name := "playwright_screenshot",
      description := "Take a screenshot of the current page or a specific element",
      inputSchema :=
        { properties := [⟨"name", "string"⟩, ⟨"selector", "string"⟩,
                         ⟨"width", "number"⟩, ⟨"height", "number"⟩],
          required := ["name"] } },
    { name := "playwright_click",
      description := "Click an element on the page",
      inputSchema := { properties := [⟨"selector", "string"⟩], required := ["selector"] } },
    { name := "playwright_fill",
      description := "Fill out an input field",
      inputSchema := { properties := [⟨"selector", "string"⟩, ⟨"value", "string"⟩],
                       required := ["selector", "value"] } },
    { name := "playwright_select",
      description := "Select an element on the page with Select tag",
      inputSchema := { properties := [⟨"selector", "string"⟩, ⟨"value", "string"⟩],
                       required := ["selector", "value"] } },
    { name := "playwright_hover",
      description := "Hover an element on the page",
      inputSchema := { properties := [⟨"selector", "string"⟩], required := ["selector"] } },
    { name := "playwright_evaluate",
      description := "Execute JavaScript in the browser console",
      inputSchema := { properties := [⟨"script", "string"⟩], required := ["script"] } } ]

/-- Names advertised in the command catalog. -/
def toolNames : List String := TOOLS.map (fun t => t.name)

/-! ## Data model -/

/-- One content item of a tool-result envelope (text or inline image). -/
inductive Content
  | text (t : String)
  | image (data : String) (mimeType : String)
deriving DecidableEq

/-- The uniform result envelope (`CallToolResult`). -/
structure ToolResult where
  content : List Content
  isError : Bool
deriving DecidableEq

/-- Ghost trace of externally visible operations: driver invocations and
outbound notifications.  The source performs these as side effects; the
embedding records them so claims about "no engine launch" and "viewport
was set to w times h" are expressible. -/
inductive Effect
  | launch
  | newContext
  | newPage
  | subscribeConsole
  | goto (url : Option String)
  | setViewport (w h : Int)
  | screenshot (selector : Option String)
  | click (selector : Option String)
  | fill (selector value : Option String)
  | selectOpt (selector value : Option String)
  | hover (selector : Option String)
  | evaluateScript (script : Option String)
  | notify (method : String)
deriving DecidableEq

/-- The mutable globals of src/main.ts lines 127-131: `browser`, `page`,
`consoleLogs`, `screenshots` — plus the ghost `trace`.  Browser and page
handles are abstracted to numeric identities; `screenshots` is an
insertion-ordered association list modelling the JS `Map`. -/
structure ServerState where
  browser : Option Nat
  page : Option Nat
  consoleLogs : List String
  screenshots : List (String × String)
  trace : List Effect
deriving DecidableEq

/-- The opaque automation engine.  Each operation yields a result or a
driver error (`Except.error` = rejected promise).  Screenshot bytes are
octet lists, encoded by `encodeB64` before storage, as in the source. -/
structure Driver where
  launch : Except String Nat
  newContext : Except String Nat
  newPage : Except String Nat
  goto : Option String → Except String Unit
  setViewportSize : Int → Int → Except String Unit
  pageScreenshot : Except String (List Nat)
  locatorScreenshot : String → Except String (List Nat)
  click : Option String → Except String Unit
  fill : Option String → Option String → Except String Unit
  selectOption : Option String → Option String → Except String Unit
  hover : Option String → Except String Unit
  evaluateScript : Option String → Except String (String × List String)

/-- The argument bag of a tool call.  `none` models an absent (or
nullish) field; `some v` a present value.  In particular
`width := some 0` is a present-but-falsy number, which the source keeps
because it uses the nullish coalescing operator, not logical or. -/
structure Args where
  url : Option String := none
  name : Option String := none
  selector : Option String := none
  width : Option Int := none
  height : Option Int := none
  value : Option String := none
  script : Option String := none

/-- JS template-literal rendering of a possibly-undefined string value. -/
def jsStr : Option String → String
  | none => "undefined"
  | some s => s

/-- Message thrown by JS when a method is read off `undefined` (the
`page` global before any successful session creation). -/
def pageUndefined (method : String) : String :=
  "TypeError: Cannot read properties of undefined (reading \x27" ++ method ++ "\x27)"

/-! ## Screenshot store (JS `Map` with insertion order) -/

/-- Models `Map.prototype.set`: an existing key keeps its position and
gets the new value; a new key is appended at the end.  (A JS `Map`
holds at most one entry per key, so replacing the first occurrence is
exact.) -/
def mapSet : List (String × String) → String → String → List (String × String)
  | [], k, v => [(k, v)]
  | p :: rest, k, v => if p.1 = k then (k, v) :: rest else p :: mapSet rest k v

/-- Models `Map.prototype.get`. -/
def mapGet : List (String × String) → String → Option String
  | [], _ => none
  | p :: rest, k => if p.1 = k then some p.2 else mapGet rest k

/-- Models `Map.prototype.keys` (insertion order). -/
def mapKeys (m : List (String × String)) : List String := m.map (fun p => p.1)

/-! ## Base64 encoding (`encodeBase64` from the std encoding library) -/

def b64Alphabet : List Char :=
  "ABCDEFGHIJKLMNOPQRSTUVWXYZabcdefghijklmnopqrstuvwxyz0123456789+/".data

def b64CharAt (i : Nat) : Char := b64Alphabet.getD i '='

def encodeB64Chunks : List Nat → List Char
  | [] => []
  | [a] => [b64CharAt (a / 4), b64CharAt (a % 4 * 16), '=', '=']
  | [a, b] =>
    [b64CharAt (a / 4), b64CharAt (a % 4 * 16 + b / 16), b64CharAt (b % 16 * 4), '=']
  | a :: b :: c :: rest =>
    b64CharAt (a / 4) :: b64CharAt (a % 4 * 16 + b / 16) ::
      b64CharAt (b % 16 * 4 + c / 64) :: b64CharAt (c % 64) :: encodeB64Chunks rest

def encodeB64 (bytes : List Nat) : String := String.mk (encodeB64Chunks bytes)

/-! ## Session manager (`ensureBrowser`, src/main.ts lines 133-149)

The source:
```
if (!browser) \x7b
  browser = await chromium.launch(\x7b headless: false \x7d);
  const context = await browser.newContext();
  page = await context.newPage();
  page.on("console", ...);
\x7d
return page!;
```
Assignment of `browser` happens when the launch promise resolves, so a
later failure (context or page creation) leaves `browser` set while
`page` is still `undefined`.  The returned value models `page!`, which
at runtime is just the global `page` (possibly `undefined` = `none`). -/

def ensureBrowser (d : Driver) (s : ServerState) :
    ServerState × Except String (Option Nat) :=
  match s.browser with
  | some _ => (s, Except.ok s.page)
  | none =>
    let s1 := { s with trace := s.trace ++ [Effect.launch] }
    match d.launch with
    | Except.error e => (s1, Except.error e)
    | Except.ok b =>
      let s2 := { s1 with browser := some b, trace := s1.trace ++ [Effect.newContext] }
      match d.newContext with
      | Except.error e => (s2, Except.error e)
      | Except.ok _ctx =>
        let s3 := { s2 with trace := s2.trace ++ [Effect.newPage] }
        match d.newPage with
        | Except.error e => (s3, Except.error e)
        | Except.ok p =>
          let s4 := { s3 with page := some p, trace := s3.trace ++ [Effect.subscribeConsole] }
          (s4, Except.ok (some p))

/-! ## Command handlers (the switch cases of `handleToolCall`) -/

/-- Case `playwright_navigate` (lines 158-170).  No try/catch in the
source: a goto failure (or the TypeError from an undefined page)
escapes as an exception. -/
def navigateCmd (d : Driver) (page : Option Nat) (args : Args) (s : ServerState) :
    ServerState × Except String ToolResult :=
  match page with
  | none => (s, Except.error (pageUndefined "goto"))
  | some _ =>
    let s1 := { s with trace := s.trace ++ [Effect.goto args.url] }
    match d.goto args.url with
    | Except.error e => (s1, Except.error e)
    | Except.ok _ =>
      (s1, Except.ok { content := [Content.text ("Navigated to " ++ jsStr args.url)],
                       isError := false })

/-- The screenshot target expression of lines 177-179: the source
branches on the truthiness of `args.selector`, so an absent selector or
an empty-string selector captures the full page, any other selector the
located element. -/
def shotOp (d : Driver) (selector : Option String) : Except String (List Nat) :=
  match selector with
  | some sel => if sel = "" then d.pageScreenshot else d.locatorScreenshot sel
  | none => d.pageScreenshot

/-- Case `playwright_screenshot` (lines 172-204).  Width and height fall
back to 800 and 600 via the nullish coalescing operator; the result is
stored under `args.name` in the screenshot store (overwrite), a
list-changed notification is emitted, and the envelope carries text plus
the inline image.  No try/catch in the source: driver failures escape.
The source branches on the truthiness of `args.selector`, so an empty
string selector takes the full-page branch. -/
def screenshotCmd (d : Driver) (page : Option Nat) (args : Args) (s : ServerState) :
    ServerState × Except String ToolResult :=
  let width := args.width.getD 800
  let height := args.height.getD 600
  match page with
  | none => (s, Except.error (pageUndefined "setViewportSize"))
  | some _ =>
    let s1 := { s with trace := s.trace ++ [Effect.setViewport width height] }
    match d.setViewportSize width height with
    | Except.error e => (s1, Except.error e)
    | Except.ok _ =>
      let s2 := { s1 with trace := s1.trace ++ [Effect.screenshot args.selector] }
      match shotOp d args.selector with
      | Except.error e => (s2, Except.error e)
      | Except.ok bytes =>
        let b64 := encodeB64 bytes
        let s3 :=
          { s2 with screenshots := mapSet s2.screenshots (jsStr args.name) b64,
                    trace := s2.trace ++ [Effect.notify "notifications/resources/list_changed"] }
        (s3, Except.ok
          { content :=
              [Content.text ("Screenshot \x27" ++ jsStr args.name ++ "\x27 taken at " ++
                 toString width ++ "x" ++ toString height),
               Content.image b64 "image/png"],
            isError := false })

/-- Case `playwright_click` (lines 206-233), try/catch around the driver
call: failures become an `isError` envelope. -/
def clickCmd (d : Driver) (page : Option Nat) (args : Args) (s : ServerState) :
    ServerState × Except String ToolResult :=
  match page with
  | none =>
    (s, Except.ok { content := [Content.text ("Failed to click " ++ jsStr args.selector ++
          ": " ++ pageUndefined "click")], isError := true })
  | some _ =>
    let s1 := { s with trace := s.trace ++ [Effect.click args.selector] }
    match d.click args.selector with
    | Except.error e =>
      (s1, Except.ok { content := [Content.text ("Failed to click " ++ jsStr args.selector ++
            ": " ++ e)], isError := true })
    | Except.ok _ =>
      (s1, Except.ok { content := [Content.text ("Clicked: " ++ jsStr args.selector)],
                       isError := false })

/-- Case `playwright_fill` (lines 235-262), try/catch as for click. -/
def fillCmd (d : Driver) (page : Option Nat) (args : Args) (s : ServerState) :
    ServerState × Except String ToolResult :=
  match page with
  | none =>
    (s, Except.ok { content := [Content.text ("Failed to fill " ++ jsStr args.selector ++
          ": " ++ pageUndefined "fill")], isError := true })
  | some _ =>
    let s1 := { s with trace := s.trace ++ [Effect.fill args.selector args.value] }
    match d.fill args.selector args.value with
    | Except.error e =>
      (s1, Except.ok { content := [Content.text ("Failed to fill " ++ jsStr args.selector ++
            ": " ++ e)], isError := true })
    | Except.ok _ =>
      (s1, Except.ok { content := [Content.text ("Filled " ++ jsStr args.selector ++
            " with: " ++ jsStr args.value)], isError := false })

/-- Case `playwright_select` (lines 264-291), try/catch as for click. -/
def selectCmd (d : Driver) (page : Option Nat) (args : Args) (s : ServerState) :
    ServerState × Except String ToolResult :=
  match page with
  | none =>
    (s, Except.ok { content := [Content.text ("Failed to select " ++ jsStr args.selector ++
          ": " ++ pageUndefined "selectOption")], isError := true })
  | some _ =>
    let s1 := { s with trace := s.trace ++ [Effect.selectOpt args.selector args.value] }
    match d.selectOption args.selector args.value with
    | Except.error e =>
      (s1, Except.ok { content := [Content.text ("Failed to select " ++ jsStr args.selector ++
            ": " ++ e)], isError := true })
    | Except.ok _ =>
      (s1, Except.ok { content := [Content.text ("Selected " ++ jsStr args.selector ++
            " with: " ++ jsStr args.value)], isError := false })

/-- Case `playwright_hover` (lines 293-320), try/catch as for click. -/
def hoverCmd (d : Driver) (page : Option Nat) (args : Args) (s : ServerState) :
    ServerState × Except String ToolResult :=
  match page with
  | none =>
    (s, Except.ok { content := [Content.text ("Failed to hover " ++ jsStr args.selector ++
          ": " ++ pageUndefined "hover")], isError := true })
  | some _ =>
    let s1 := { s with trace := s.trace ++ [Effect.hover args.selector] }
    match d.hover args.selector with
    | Except.error e =>
      (s1, Except.ok { content := [Content.text ("Failed to hover " ++ jsStr args.selector ++
            ": " ++ e)], isError := true })
    | Except.ok _ =>
      (s1, Except.ok { content := [Content.text ("Hovered " ++ jsStr args.selector)],
                       isError := false })

/-- Case `playwright_evaluate` (lines 322-373), try/catch around the
whole page evaluation.  The in-page console interception and
JSON-stringification happen inside the driver boundary; the driver
returns the stringified expression result together with the captured
log lines. -/
def evaluateCmd (d : Driver) (page : Option Nat) (args : Args) (s : ServerState) :
    ServerState × Except String ToolResult :=
  match page with
  | none =>
    (s, Except.ok { content := [Content.text ("Script execution failed: " ++
          pageUndefined "evaluate")], isError := true })
  | some _ =>
    let s1 := { s with trace := s.trace ++ [Effect.evaluateScript args.script] }
    match d.evaluateScript args.script with
    | Except.error e =>
      (s1, Except.ok { content := [Content.text ("Script execution failed: " ++ e)],
                       isError := true })
    | Except.ok r =>
      (s1, Except.ok { content := [Content.text ("Execution result:\n" ++ r.1 ++
            "\n\nConsole output:\n" ++ String.intercalate "\n" r.2)], isError := false })

/-- The dispatcher (`handleToolCall`, lines 151-388).  Note the source
awaits `ensureBrowser()` before inspecting the command name, so every
dispatch — including one with an unknown name — first touches the
session; a session-creation failure escapes as an exception.  The
switch is a sequential comparison against the seven known names, with
the default branch producing the unknown-tool error envelope. -/
def handleToolCall (d : Driver) (s : ServerState) (name : String) (args : Args) :
    ServerState × Except String ToolResult :=
  match ensureBrowser d s with
  | (s1, Except.error e) => (s1, Except.error e)
  | (s1, Except.ok page) =>
    if name = "playwright_navigate" then navigateCmd d page args s1
    else if name = "playwright_screenshot" then screenshotCmd d page args s1
    else if name = "playwright_click" then clickCmd d page args s1
    else if name = "playwright_fill" then fillCmd d page args s1
    else if name = "playwright_select" then selectCmd d page args s1
    else if name = "playwright_hover" then hoverCmd d page args s1
    else if name = "playwright_evaluate" then evaluateCmd d page args s1
    else (s1, Except.ok { content := [Content.text ("Unknown tool: " ++ name)],
                          isError := true })

/-! ## Console event handler (lines 139-146) -/

structure ConsoleMsg where
  type : String
  text : String

/-- Rendering of one console message: a template literal of the message
type in brackets followed by the text. -/
def fmtConsole (m : ConsoleMsg) : String := "[" ++ m.type ++ "] " ++ m.text

/-- The console subscription callback: appends the formatted entry to
the log buffer and fires a resource-updated notification. -/
def consoleHandler (s : ServerState) (m : ConsoleMsg) : ServerState :=
  { s with consoleLogs := s.consoleLogs ++ [fmtConsole m],
           trace := s.trace ++ [Effect.notify "notifications/resources/updated"] }

/-! ## JS string splitting (`uri.split("://")` specialised to that
separator), used by the ReadResource handler. -/

/-- Splits a character list at every non-overlapping occurrence of
`://`, scanning left to right, exactly as `String.prototype.split`
does for this fixed separator. -/
def jsSplit : List Char → List (List Char)
  | [] => [[]]
  | ':' :: '/' :: '/' :: rest => [] :: jsSplit rest
  | c :: rest => List.modifyHead (fun h => c :: h) (jsSplit rest)

/-- Decides whether `://` occurs in a character list. -/
def containsSep : List Char → Bool
  | [] => false
  | ':' :: '/' :: '/' :: _ => true
  | _ :: rest => containsSep rest

/-- Element 1 of `uri.split("://")` — `none` models JS `undefined` when
the split produced fewer than two segments. -/
def splitIdx1 (uri : String) : Option String :=
  match jsSplit uri.data with
  | _ :: seg :: _ => some (String.mk seg)
  | _ => none

/-- Boolean string-prefix test on character lists, modelling
`String.prototype.startsWith`. -/
def leadsWith : List Char → List Char → Bool
  | [], _ => true
  | _ :: _, [] => false
  | a :: as, b :: bs => a == b && leadsWith as bs

/-! ## Resource protocol adapter (lines 404-453) -/

structure ResourceEntry where
  uri : String
  mimeType : String
  name : String
deriving DecidableEq

/-- The singleton logs resource advertised first by ListResources. -/
def logsResource : ResourceEntry :=
  { uri := "console://logs", mimeType := "text/plain", name := "Browser console logs" }

/-- The advertised entry for one stored screenshot name. -/
def shotResource (n : String) : ResourceEntry :=
  { uri := "screenshot://" ++ n, mimeType := "image/png", name := "Screenshot: " ++ n }

/-- The ListResources handler (lines 404-417): the logs resource
followed by one entry per stored screenshot, in store insertion order,
computed from the current state on every call. -/
def listResources (s : ServerState) : List ResourceEntry :=
  logsResource :: (mapKeys s.screenshots).map shotResource

/-- Result contents of a successful ReadResource call. -/
inductive ReadResult
  | textContents (uri mimeType text : String)
  | blobContents (uri mimeType blob : String)
deriving DecidableEq

/-- The ReadResource handler (lines 419-453).  The logs uri returns the
joined log buffer; a uri starting with `screenshot://` is split on
`://` and segment 1 is looked up in the store; anything else — or a
missing name — throws `Resource not found`.  The source guards the
found payload with a truthiness test (`if (screenshot)`), so a stored
empty string also falls through to the throw.  The handler reads the
registries and performs no writes, so the embedding is a pure function
of the state. -/
def readResource (s : ServerState) (uri : String) : Except String ReadResult :=
  if uri = "console://logs" then
    Except.ok (ReadResult.textContents uri "text/plain"
      (String.intercalate "\n" s.consoleLogs))
  else if leadsWith "screenshot://".data uri.data then
    match splitIdx1 uri with
    | some nm =>
      match mapGet s.screenshots nm with
      | some shot =>
        if shot = "" then Except.error ("Resource not found: " ++ uri)
        else Except.ok (ReadResult.blobContents uri "image/png" shot)
      | none => Except.error ("Resource not found: " ++ uri)
    | none => Except.error ("Resource not found: " ++ uri)
  else Except.error ("Resource not found: " ++ uri)

/-! ## Interleaving model of `ensureBrowser` for the concurrency claim

Each caller of `ensureBrowser` is a coroutine whose `await` points cut
it into atomic segments, exactly as the single-threaded event loop
schedules them:
  - `start`: run the `!browser` check; if no browser, begin the launch
    (this is where the launch side effect happens) and suspend;
    otherwise return the current global `page` immediately;
  - `doLaunch`: the launch resolved — assign `browser`, begin
    `newContext`, suspend;
  - `doCtx`: the context resolved — begin `newPage`, suspend;
  - `doPage`: the page resolved — assign `page`, subscribe the console
    handler, and return the global `page`.
The driver is taken to always succeed; handle identities come from a
fresh counter.  `launches` counts engine launches. -/

inductive CoPC
  | start
  | doLaunch
  | doCtx
  | doPage
  | done
deriving DecidableEq

structure CoCaller where
  pc : CoPC
  ret : Option (Option Nat)
deriving DecidableEq

structure CoState where
  browser : Option Nat
  page : Option Nat
  launches : Nat
  nextId : Nat
  callers : List CoCaller
deriving DecidableEq

def coSet (s : CoState) (i : Nat) (c : CoCaller) : CoState :=
  { s with callers := s.callers.set i c }

/-- Advance caller `i` by one atomic segment. -/
def coStep (s : CoState) (i : Nat) : CoState :=
  match s.callers[i]? with
  | none => s
  | some c =>
    match c.pc with
    | CoPC.start =>
      match s.browser with
      | some _ => coSet s i { pc := CoPC.done, ret := some s.page }
      | none => { coSet s i { c with pc := CoPC.doLaunch } with launches := s.launches + 1 }
    | CoPC.doLaunch =>
      { coSet s i { c with pc := CoPC.doCtx } with
          browser := some s.nextId, nextId := s.nextId + 1 }
    | CoPC.doCtx => coSet s i { c with pc := CoPC.doPage }
    | CoPC.doPage =>
      { coSet s i { pc := CoPC.done, ret := some (some s.nextId) } with
          page := some s.nextId, nextId := s.nextId + 1 }
    | CoPC.done => s

/-- Run a schedule: at each tick the named caller advances one segment. -/
def coRun (s : CoState) (sched : List Nat) : CoState := sched.foldl coStep s

/-- N callers, all about to run their first segment, no session yet. -/
def coInit (n : Nat) : CoState :=
  { browser := none, page := none, launches := 0, nextId := 0,
    callers := List.replicate n { pc := CoPC.start, ret := none } }

/-! ## Concrete fixtures for counterexamples and witnesses -/

def initialState : ServerState :=
  { browser := none, page := none, consoleLogs := [], screenshots := [], trace := [] }

/-- A state whose session is already live (browser and page present). -/
def sLive : ServerState :=
  { browser := some 0, page := some 0, consoleLogs := [], screenshots := [], trace := [] }

def dAllOk : Driver :=
  { launch := Except.ok 0, newContext := Except.ok 0, newPage := Except.ok 0,
    goto := fun _ => Except.ok (), setViewportSize := fun _ _ => Except.ok (),
    pageScreenshot := Except.ok [1, 2, 3],
    locatorScreenshot := fun _ => Except.ok [4, 5],
    click := fun _ => Except.ok (), fill := fun _ _ => Except.ok (),
    selectOption := fun _ _ => Except.ok (), hover := fun _ => Except.ok (),
    evaluateScript := fun _ => Except.ok ("2", ["[log] hi"]) }

def dNavFail : Driver := { dAllOk with goto := fun _ => Except.error "net::ERR_NAME_NOT_RESOLVED" }

def dCtxFail : Driver := { dAllOk with newContext := Except.error "browserContext failed" }

def dLaunchFail : Driver := { dAllOk with launch := Except.error "engine binary missing" }

def dShot2 : Driver := { dAllOk with pageScreenshot := Except.ok [9, 9, 9] }

def noArgs : Args := {}

/-- Second-call state of the duplicate-name capture scenario used by
the artifact-overwrite claim, with a name containing `://`. -/
def sepArgs : Args := { name := some "a://b" }

/-- Names of the five commands whose handler bodies are wrapped in
try/catch in the source. -/
def guardedNames : List String :=
  ["playwright_click", "playwright_fill", "playwright_select",
   "playwright_hover", "playwright_evaluate"]

def errB : Except String Unit → Bool
  | Except.ok _ => false
  | Except.error _ => true

/-- Whether the guarded handler for `name` observes a failure: either
the page global is undefined (TypeError inside the try block) or the
driver operation rejects. -/
def guardedErrFlag (d : Driver) (page : Option Nat) (args : Args) (name : String) : Bool :=
  match page with
  | none => true
  | some _ =>
    if name = "playwright_click" then errB (d.click args.selector)
    else if name = "playwright_fill" then errB (d.fill args.selector args.value)
    else if name = "playwright_select" then errB (d.selectOption args.selector args.value)
    else if name = "playwright_hover" then errB (d.hover args.selector)
    else errB ((d.evaluateScript args.script).map (fun _ => ()))

/-- Arguments with an explicitly supplied zero width and height (a
present-but-falsy numeric field in JS). -/
def zeroArgs : Args := { name := some "x", width := some 0, height := some 0 }

/-- A live-session state holding one stored screenshot named `a`. -/
def sC9 : ServerState := { sLive with screenshots := [("a", "PAYLOAD")] }

/-- State after a first successful capture of name `a://b`. -/
def c6s1 : ServerState := (handleToolCall dAllOk sLive "playwright_screenshot" sepArgs).1

/-- State after a second successful capture of the same name `a://b`
with a different payload. -/
def c6s2 : ServerState := (handleToolCall dShot2 c6s1 "playwright_screenshot" sepArgs).1

/-- Whether a dispatch outcome is an envelope (and not an exception that
escaped to the transport). -/
def isOkEnv : Except String ToolResult → Bool
  | Except.ok _ => true
  | Except.error _ => false

/-- The isError flag of a dispatch outcome (false for an escaped
exception, which carries no envelope). -/
def envIsError : Except String ToolResult → Bool
  | Except.ok r => r.isError
  | Except.error _ => false

/-! ## Helper lemmas: screenshot store -/

theorem mapKeys_cons (p : String × String) (rest : List (String × String)) :
    mapKeys (p :: rest) = p.1 :: mapKeys rest := rfl

theorem mapGet_mapSet_self (m : List (String × String)) (k v : String) :
    mapGet (mapSet m k v) k = some v := by
  induction m with
  | nil => simp [mapSet, mapGet]
  | cons p rest ih =>
    by_cases hp : p.1 = k
    · simp [mapSet, mapGet, hp]
    · simp [mapSet, mapGet, hp, ih]

theorem mapKeys_mapSet (m : List (String × String)) (k v : String) :
    mapKeys (mapSet m k v) = if k ∈ mapKeys m then mapKeys m else mapKeys m ++ [k] := by
  induction m with
  | nil => simp [mapSet, mapKeys]
  | cons p rest ih =>
    by_cases hp : p.1 = k
    · subst hp
      simp [mapSet, mapKeys]
    · have hk : ¬ k = p.1 := fun h => hp h.symm
      simp only [mapSet, if_neg hp, mapKeys_cons, ih]
      by_cases hmem : k ∈ mapKeys rest
      · simp [hmem, hk]
      · simp [hmem, hk]

theorem mem_mapKeys_mapSet (m : List (String × String)) (k v : String) :
    k ∈ mapKeys (mapSet m k v) := by
  rw [mapKeys_mapSet]
  by_cases h : k ∈ mapKeys m
  · rwa [if_pos h]
  · rw [if_neg h]; simp

theorem nodup_mapKeys_mapSet {m : List (String × String)} (k v : String)
    (hnd : (mapKeys m).Nodup) : (mapKeys (mapSet m k v)).Nodup := by
  rw [mapKeys_mapSet]
  by_cases h : k ∈ mapKeys m
  · rwa [if_pos h]
  · rw [if_neg h]
    rw [List.nodup_append]
    exact ⟨hnd, List.nodup_singleton k, by simpa using h⟩

/-! ## Helper lemmas: strings, splitting and uris -/

theorem jsSplit_scheme (t : List Char) :
    jsSplit ("screenshot://".data ++ t) = "screenshot".data :: jsSplit t := by
  simp [jsSplit, List.modifyHead]

theorem jsSplit_noSep : ∀ s : List Char, containsSep s = false → jsSplit s = [s] := by
  intro s h
  induction s using jsSplit.induct with
  | case1 => rfl
  | case2 rest ih => simp [containsSep] at h
  | case3 c rest hne ih =>
    rw [containsSep] at h
    · rw [jsSplit]
      · rw [ih h]
        simp [List.modifyHead]
      · exact hne
    · exact hne

theorem leadsWith_self_append : ∀ p t : List Char, leadsWith p (p ++ t) = true := by
  intro p t
  induction p with
  | nil => rfl
  | cons a as ih => simp [leadsWith, ih]

theorem shotUri_ne_logs (n : String) : "console://logs" ≠ "screenshot://" ++ n := by
  intro h
  have h2 : ("console://logs").data.head? = ("screenshot://" ++ n).data.head? := by rw [h]
  rw [String.data_append] at h2
  have h3 : ("screenshot://".data ++ n.data).head? = some 's' := rfl
  rw [h3] at h2
  exact absurd h2 (by decide)

theorem shotUri_inj {k n : String} (h : "screenshot://" ++ k = "screenshot://" ++ n) :
    k = n := by
  have h2 := congrArg String.data h
  rw [String.data_append, String.data_append] at h2
  exact String.ext (List.append_cancel_left h2)

theorem splitIdx1_shot {n : String} (hn : containsSep n.data = false) :
    splitIdx1 ("screenshot://" ++ n) = some n := by
  rw [splitIdx1, String.data_append, jsSplit_scheme, jsSplit_noSep n.data hn]

theorem encodeB64Chunks_ne_nil (a : Nat) (bs : List Nat) :
    encodeB64Chunks (a :: bs) ≠ [] := by
  cases bs with
  | nil => simp [encodeB64Chunks]
  | cons b bs2 =>
    cases bs2 with
    | nil => simp [encodeB64Chunks]
    | cons c bs3 => simp [encodeB64Chunks]

theorem encodeB64_ne_empty {bytes : List Nat} (h : bytes ≠ []) : encodeB64 bytes ≠ "" := by
  cases bytes with
  | nil => exact absurd rfl h
  | cons a bs =>
    intro he
    have h2 : encodeB64Chunks (a :: bs) = ([] : List Char) := congrArg String.data he
    exact encodeB64Chunks_ne_nil a bs h2

theorem readResource_shot {s : ServerState} {n p : String}
    (hn : containsSep n.data = false) (hget : mapGet s.screenshots n = some p)
    (hne : p ≠ "") :
    readResource s ("screenshot://" ++ n)
      = Except.ok (ReadResult.blobContents ("screenshot://" ++ n) "image/png" p) := by
  rw [readResource, if_neg (fun h => shotUri_ne_logs n h.symm)]
  rw [if_pos (by rw [String.data_append]; exact leadsWith_self_append _ _)]
  rw [splitIdx1_shot hn]
  simp [hget, hne]

/-! ## Helper lemmas: the session manager -/

theorem ensureBrowser_live {d : Driver} {s : ServerState} {b : Nat}
    (hb : s.browser = some b) : ensureBrowser d s = (s, Except.ok s.page) := by
  rw [ensureBrowser, hb]

theorem ensureBrowser_registries (d : Driver) (s : ServerState) :
    (ensureBrowser d s).1.consoleLogs = s.consoleLogs ∧
    (ensureBrowser d s).1.screenshots = s.screenshots := by
  cases hb : s.browser with
  | some b => simp [ensureBrowser, hb]
  | none =>
    cases hl : d.launch with
    | error e => simp [ensureBrowser, hb, hl]
    | ok b =>
      cases hc : d.newContext with
      | error e => simp [ensureBrowser, hb, hl, hc]
      | ok ctx =>
        cases hp : d.newPage with
        | error e => simp [ensureBrowser, hb, hl, hc, hp]
        | ok p => simp [ensureBrowser, hb, hl, hc, hp]

/-! ## Helper lemmas: resource listing and counting -/

theorem countP_listResources (s : ServerState) (n : String) :
    (listResources s).countP (fun e => e.uri == "screenshot://" ++ n)
      = (mapKeys s.screenshots).count n := by
  rw [listResources, List.countP_cons_of_neg, List.countP_map, List.count_eq_countP]
  · apply List.countP_congr
    intro k _
    show ((shotResource k).uri == "screenshot://" ++ n) = true ↔ (k == n) = true
    simp only [shotResource, beq_iff_eq]
    exact ⟨fun h => shotUri_inj h, fun h => by rw [h]⟩
  · show ¬ (logsResource.uri == "screenshot://" ++ n) = true
    simp only [logsResource, beq_iff_eq]
    exact shotUri_ne_logs n

/-! ## Helper lemmas: the screenshot command and dispatch -/

theorem handleToolCall_live {d : Driver} {s : ServerState} {b : Nat}
    (hb : s.browser = some b) (name : String) (args : Args) :
    handleToolCall d s name args =
      (if name = "playwright_navigate" then navigateCmd d s.page args s
       else if name = "playwright_screenshot" then screenshotCmd d s.page args s
       else if name = "playwright_click" then clickCmd d s.page args s
       else if name = "playwright_fill" then fillCmd d s.page args s
       else if name = "playwright_select" then selectCmd d s.page args s
       else if name = "playwright_hover" then hoverCmd d s.page args s
       else if name = "playwright_evaluate" then evaluateCmd d s.page args s
       else (s, Except.ok { content := [Content.text ("Unknown tool: " ++ name)],
                            isError := true })) := by
  rw [handleToolCall, ensureBrowser_live hb]

theorem screenshotCmd_ok {d : Driver} {pg : Nat} {args : Args} {s : ServerState}
    {nm : String} {bytes : List Nat}
    (hn : args.name = some nm) (hsel : args.selector = none)
    (hv : d.setViewportSize (args.width.getD 800) (args.height.getD 600) = Except.ok ())
    (hshot : d.pageScreenshot = Except.ok bytes) :
    (screenshotCmd d (some pg) args s).1.screenshots
        = mapSet s.screenshots nm (encodeB64 bytes)
    ∧ (screenshotCmd d (some pg) args s).1.browser = s.browser
    ∧ (screenshotCmd d (some pg) args s).1.page = s.page
    ∧ (screenshotCmd d (some pg) args s).1.consoleLogs = s.consoleLogs
    ∧ (screenshotCmd d (some pg) args s).2
        = Except.ok
            { content :=
                [Content.text ("Screenshot \x27" ++ nm ++ "\x27 taken at " ++
                    toString (args.width.getD 800) ++ "x" ++
                    toString (args.height.getD 600)),
                 Content.image (encodeB64 bytes) "image/png"],
              isError := false } := by
  rw [screenshotCmd]
  simp [hsel, hv, hshot, hn, jsStr, shotOp]

/-! ## Helper lemmas: the log buffer -/

theorem foldl_consoleHandler_logs (msgs : List ConsoleMsg) :
    ∀ s : ServerState,
      (msgs.foldl consoleHandler s).consoleLogs = s.consoleLogs ++ msgs.map fmtConsole := by
  induction msgs with
  | nil => intro s; simp
  | cons m ms ih => intro s; simp [consoleHandler, ih, List.append_assoc]

/-! ## Helper lemmas: the five try/catch-guarded commands always return
an envelope -/

theorem clickCmd_guarded (d : Driver) (page : Option Nat) (args : Args) (s : ServerState) :
    isOkEnv (clickCmd d page args s).2 = true
    ∧ envIsError (clickCmd d page args s).2
        = (match page with
           | none => true
           | some _ => errB (d.click args.selector)) := by
  cases page with
  | none => exact ⟨rfl, rfl⟩
  | some pg =>
    cases hc : d.click args.selector with
    | error e => simp [clickCmd, hc, isOkEnv, envIsError, errB]
    | ok u => simp [clickCmd, hc, isOkEnv, envIsError, errB]

theorem fillCmd_guarded (d : Driver) (page : Option Nat) (args : Args) (s : ServerState) :
    isOkEnv (fillCmd d page args s).2 = true
    ∧ envIsError (fillCmd d page args s).2
        = (match page with
           | none => true
           | some _ => errB (d.fill args.selector args.value)) := by
  cases page with
  | none => exact ⟨rfl, rfl⟩
  | some pg =>
    cases hc : d.fill args.selector args.value with
    | error e => simp [fillCmd, hc, isOkEnv, envIsError, errB]
    | ok u => simp [fillCmd, hc, isOkEnv, envIsError, errB]

theorem selectCmd_guarded (d : Driver) (page : Option Nat) (args : Args) (s : ServerState) :
    isOkEnv (selectCmd d page args s).2 = true
    ∧ envIsError (selectCmd d page args s).2
        = (match page with
           | none => true
           | some _ => errB (d.selectOption args.selector args.value)) := by
  cases page with
  | none => exact ⟨rfl, rfl⟩
  | some pg =>
    cases hc : d.selectOption args.selector args.value with
    | error e => simp [selectCmd, hc, isOkEnv, envIsError, errB]
    | ok u => simp [selectCmd, hc, isOkEnv, envIsError, errB]

theorem hoverCmd_guarded (d : Driver) (page : Option Nat) (args : Args) (s : ServerState) :
    isOkEnv (hoverCmd d page args s).2 = true
    ∧ envIsError (hoverCmd d page args s).2
        = (match page with
           | none => true
           | some _ => errB (d.hover args.selector)) := by
  cases page with
  | none => exact ⟨rfl, rfl⟩
  | some pg =>
    cases hc : d.hover args.selector with
    | error e => simp [hoverCmd, hc, isOkEnv, envIsError, errB]
    | ok u => simp [hoverCmd, hc, isOkEnv, envIsError, errB]

theorem evaluateCmd_guarded (d : Driver) (page : Option Nat) (args : Args) (s : ServerState) :
    isOkEnv (evaluateCmd d page args s).2 = true
    ∧ envIsError (evaluateCmd d page args s).2
        = (match page with
           | none => true
           | some _ => errB ((d.evaluateScript args.script).map (fun _ => ()))) := by
  cases page with
  | none => exact ⟨rfl, rfl⟩
  | some pg =>
    cases hc : d.evaluateScript args.script with
    | error e => simp [evaluateCmd, hc, isOkEnv, envIsError, errB, Except.map]
    | ok r => simp [evaluateCmd, hc, isOkEnv, envIsError, errB, Except.map]

/-! ## Claim theorems -/

/-- C8: for every sequence of console events appended during a session,
reading `console://logs` returns exactly those entries — formatted as
on arrival and appended to whatever the buffer already held — joined
with newlines in arrival order; no entry is lost, reordered, mutated or
removed. -/
theorem C8_log_monotonicity (msgs : List ConsoleMsg) (s0 : ServerState) :
    readResource (msgs.foldl consoleHandler s0) "console://logs"
      = Except.ok (ReadResult.textContents "console://logs" "text/plain"
          (String.intercalate "\n" (s0.consoleLogs ++ msgs.map fmtConsole))) := by
  rw [readResource, if_pos rfl, foldl_consoleHandler_logs msgs s0]

/-- C7: in every registry state satisfying the unique-keys store
invariant, the resource list is computed from the current state with
the singleton logs resource (uri `console://logs`, media type
`text/plain`) first, followed by exactly one `screenshot://` entry per
currently stored artifact name. -/
theorem C7_list_shape (s : ServerState) (hnd : (mapKeys s.screenshots).Nodup) :
    (listResources s).head? = some logsResource
    ∧ List.tail (listResources s) = (mapKeys s.screenshots).map shotResource
    ∧ (∀ n, n ∈ mapKeys s.screenshots →
        (listResources s).countP (fun e => e.uri == "screenshot://" ++ n) = 1)
    ∧ (∀ n, n ∉ mapKeys s.screenshots →
        (listResources s).countP (fun e => e.uri == "screenshot://" ++ n) = 0) := by
  refine ⟨rfl, rfl, ?_, ?_⟩
  · intro n hm
    rw [countP_listResources]
    exact List.count_eq_one_of_mem hnd hm
  · intro n hm
    rw [countP_listResources]
    exact List.count_eq_zero_of_not_mem hm

theorem C7_list_shape_witness :
    (listResources sC9).head? = some logsResource
    ∧ List.tail (listResources sC9) = (mapKeys sC9.screenshots).map shotResource
    ∧ (∀ n, n ∈ mapKeys sC9.screenshots →
        (listResources sC9).countP (fun e => e.uri == "screenshot://" ++ n) = 1)
    ∧ (∀ n, n ∉ mapKeys sC9.screenshots →
        (listResources sC9).countP (fun e => e.uri == "screenshot://" ++ n) = 0) :=
  C7_list_shape sC9 (by decide)

/-- C5: the capture-image command sets the viewport to 800 by 600 only
when the width and height fields are absent; supplied numeric values
are used as given, and a present-but-falsy zero is honored literally
(the source uses nullish coalescing, not a truthiness test). -/
theorem C5_default_viewport (d : Driver) (s : ServerState) (args : Args) (b g : Nat)
    (hb : s.browser = some b) (hp : s.page = some g) :
    ∃ w h rest,
      (handleToolCall d s "playwright_screenshot" args).1.trace
          = s.trace ++ Effect.setViewport w h :: rest
      ∧ (args.width = none → w = 800)
      ∧ (∀ v : Int, args.width = some v → w = v)
      ∧ (args.height = none → h = 600)
      ∧ (∀ v : Int, args.height = some v → h = v) := by
  have hw1 : args.width = none → args.width.getD 800 = (800 : Int) :=
    fun h => by rw [h]; rfl
  have hw2 : ∀ v : Int, args.width = some v → args.width.getD 800 = v :=
    fun v h => by rw [h]; rfl
  have hh1 : args.height = none → args.height.getD 600 = (600 : Int) :=
    fun h => by rw [h]; rfl
  have hh2 : ∀ v : Int, args.height = some v → args.height.getD 600 = v :=
    fun v h => by rw [h]; rfl
  rw [handleToolCall_live hb, if_neg (by decide), if_pos rfl, hp]
  cases hv : d.setViewportSize (args.width.getD 800) (args.height.getD 600) with
  | error e =>
    refine ⟨args.width.getD 800, args.height.getD 600, [], ?_, hw1, hw2, hh1, hh2⟩
    simp [screenshotCmd, hv]
  | ok u =>
    cases u
    cases hs : shotOp d args.selector with
    | error e =>
      refine ⟨args.width.getD 800, args.height.getD 600,
        [Effect.screenshot args.selector], ?_, hw1, hw2, hh1, hh2⟩
      simp [screenshotCmd, hv, hs]
    | ok bytes =>
      refine ⟨args.width.getD 800, args.height.getD 600,
        [Effect.screenshot args.selector,
         Effect.notify "notifications/resources/list_changed"], ?_, hw1, hw2, hh1, hh2⟩
      simp [screenshotCmd, hv, hs]

theorem C5_default_viewport_witness :
    ∃ w h rest,
      (handleToolCall dAllOk sLive "playwright_screenshot" zeroArgs).1.trace
          = sLive.trace ++ Effect.setViewport w h :: rest
      ∧ (zeroArgs.width = none → w = 800)
      ∧ (∀ v : Int, zeroArgs.width = some v → w = v)
      ∧ (zeroArgs.height = none → h = 600)
      ∧ (∀ v : Int, zeroArgs.height = some v → h = v) :=
  C5_default_viewport dAllOk sLive zeroArgs 0 0 rfl rfl

/-- C10: for every artifact name that does not contain the substring
`://`, a successful capture-image under that name followed by a read of
`screenshot://` plus the name returns exactly the stored base64
payload — the store/read round trip, which relies on the read handler
extracting segment 1 of the split uri.  The captured bytes are assumed
nonempty, matching the driver contract (a PNG is never zero bytes);
otherwise the read handler treats the stored empty string as falsy. -/
theorem C10_store_read_roundtrip (d : Driver) (s : ServerState) (args : Args)
    (b g : Nat) (nm : String) (bytes : List Nat)
    (hb : s.browser = some b) (hp : s.page = some g)
    (hn : args.name = some nm) (hsel : args.selector = none)
    (hv : d.setViewportSize (args.width.getD 800) (args.height.getD 600) = Except.ok ())
    (hshot : d.pageScreenshot = Except.ok bytes)
    (hbytes : bytes ≠ [])
    (hnosep : containsSep nm.data = false) :
    readResource (handleToolCall d s "playwright_screenshot" args).1
        ("screenshot://" ++ nm)
      = Except.ok (ReadResult.blobContents ("screenshot://" ++ nm) "image/png"
          (encodeB64 bytes)) := by
  rw [handleToolCall_live hb, if_neg (by decide), if_pos rfl, hp]
  have h := @screenshotCmd_ok d g args s nm bytes hn hsel hv hshot
  exact readResource_shot hnosep
    (by rw [h.1]; exact mapGet_mapSet_self s.screenshots nm (encodeB64 bytes))
    (encodeB64_ne_empty hbytes)

theorem C10_store_read_roundtrip_witness :
    readResource (handleToolCall dAllOk sLive "playwright_screenshot" zeroArgs).1
        ("screenshot://" ++ "x")
      = Except.ok (ReadResult.blobContents ("screenshot://" ++ "x") "image/png"
          (encodeB64 [1, 2, 3])) :=
  C10_store_read_roundtrip dAllOk sLive zeroArgs 0 0 "x" [1, 2, 3]
    rfl rfl rfl rfl rfl rfl (by decide) (by decide)

/-- C1 counterexample: dispatching the unknown name `nonexistent` on a
fresh state with a healthy driver does create a session — the ghost
trace records an engine launch and the browser global ends up set —
refuting the claim that an unknown command performs no session touch
and no engine launch. -/
theorem C1_counterexample :
    (handleToolCall dAllOk initialState "nonexistent" noArgs).1.browser = some 0
    ∧ Effect.launch ∈ (handleToolCall dAllOk initialState "nonexistent" noArgs).1.trace := by
  exact ⟨rfl, by decide⟩

/-- C1 amended: dispatch of an unknown command name still invokes the
session manager first (creating a session — engine launch included —
when none exists, and propagating a session-creation failure as an
exception); the log buffer and the artifact store are never mutated,
and whenever the session step succeeds the result is an envelope with
isError true and the unknown-tool text. -/
theorem C1_amended (d : Driver) (s : ServerState) (name : String) (args : Args)
    (h : name ∉ toolNames) :
    (handleToolCall d s name args).1 = (ensureBrowser d s).1
    ∧ (handleToolCall d s name args).1.consoleLogs = s.consoleLogs
    ∧ (handleToolCall d s name args).1.screenshots = s.screenshots
    ∧ (handleToolCall d s name args).2
        = (match (ensureBrowser d s).2 with
           | Except.error e => Except.error e
           | Except.ok _ =>
               Except.ok { content := [Content.text ("Unknown tool: " ++ name)],
                           isError := true }) := by
  have hreg := ensureBrowser_registries d s
  simp only [toolNames, TOOLS, List.map_cons, List.map_nil, List.mem_cons,
    List.not_mem_nil, or_false, not_or] at h
  obtain ⟨h1, h2, h3, h4, h5, h6, h7⟩ := h
  rw [handleToolCall]
  rcases hres : ensureBrowser d s with ⟨s1, r⟩
  rw [hres] at hreg
  cases r with
  | error e => exact ⟨rfl, hreg.1, hreg.2, rfl⟩
  | ok page =>
    simp only [if_neg h1, if_neg h2, if_neg h3, if_neg h4, if_neg h5, if_neg h6, if_neg h7]
    exact ⟨trivial, hreg.1, hreg.2, trivial⟩

theorem C1_amended_witness :
    (handleToolCall dAllOk initialState "nonexistent" noArgs).1
        = (ensureBrowser dAllOk initialState).1
    ∧ (handleToolCall dAllOk initialState "nonexistent" noArgs).1.consoleLogs
        = initialState.consoleLogs
    ∧ (handleToolCall dAllOk initialState "nonexistent" noArgs).1.screenshots
        = initialState.screenshots
    ∧ (handleToolCall dAllOk initialState "nonexistent" noArgs).2
        = (match (ensureBrowser dAllOk initialState).2 with
           | Except.error e => Except.error e
           | Except.ok _ =>
               Except.ok { content := [Content.text ("Unknown tool: " ++ "nonexistent")],
                           isError := true }) :=
  C1_amended dAllOk initialState "nonexistent" noArgs (by decide)

/-- C3 counterexample: with a driver whose context creation fails after
a successful engine launch, `ensureBrowser` surfaces the failure but
leaves the browser global set with no page — and a subsequent call with
a perfectly healthy driver performs no fresh creation attempt and hands
the caller the half-initialized session (an undefined page), refuting
the claim that the state after any creation failure is `no session`. -/
theorem C3_counterexample :
    (ensureBrowser dCtxFail initialState).2 = Except.error "browserContext failed"
    ∧ (ensureBrowser dCtxFail initialState).1.browser = some 0
    ∧ (ensureBrowser dCtxFail initialState).1.page = none
    ∧ ensureBrowser dAllOk (ensureBrowser dCtxFail initialState).1
        = ((ensureBrowser dCtxFail initialState).1, Except.ok none) :=
  ⟨rfl, rfl, rfl, rfl⟩

/-- C3 amended: if the engine launch itself fails, the failure is
surfaced and the state remains `no session` (so a later call retries
creation from scratch); but if context creation fails after a
successful launch, the browser handle stays assigned while the page
stays undefined, and any later caller finds the existing browser and is
handed this half-initialized session without a fresh creation
attempt. -/
theorem C3_amended :
    (∀ (d : Driver) (s : ServerState) (e : String),
      s.browser = none → d.launch = Except.error e →
      (ensureBrowser d s).2 = Except.error e
      ∧ (ensureBrowser d s).1.browser = none
      ∧ (ensureBrowser d s).1.page = s.page
      ∧ (ensureBrowser d s).1.consoleLogs = s.consoleLogs
      ∧ (ensureBrowser d s).1.screenshots = s.screenshots)
    ∧ (∀ (d : Driver) (s : ServerState) (b : Nat) (e : String),
      s.browser = none → d.launch = Except.ok b → d.newContext = Except.error e →
      (ensureBrowser d s).2 = Except.error e
      ∧ (ensureBrowser d s).1.browser = some b
      ∧ (ensureBrowser d s).1.page = s.page)
    ∧ (∀ (d : Driver) (s : ServerState) (b : Nat),
      s.browser = some b → ensureBrowser d s = (s, Except.ok s.page)) := by
  refine ⟨?_, ?_, ?_⟩
  · intro d s e hb hl
    simp [ensureBrowser, hb, hl]
  · intro d s b e hb hl hc
    simp [ensureBrowser, hb, hl, hc]
  · intro d s b hb
    exact ensureBrowser_live hb

theorem C3_amended_witness :
    (ensureBrowser dLaunchFail initialState).2 = Except.error "engine binary missing"
    ∧ (ensureBrowser dLaunchFail initialState).1.browser = none
    ∧ (ensureBrowser dLaunchFail initialState).1.page = initialState.page
    ∧ (ensureBrowser dLaunchFail initialState).1.consoleLogs = initialState.consoleLogs
    ∧ (ensureBrowser dLaunchFail initialState).1.screenshots = initialState.screenshots :=
  C3_amended.1 dLaunchFail initialState "engine binary missing" rfl rfl

/-- C9 counterexample: with only an artifact named `a` stored, the
identifier `screenshot://a://b` names no stored artifact, yet the read
succeeds and returns the payload of `a` — the handler truncates the
name at the first `://` — refuting the claim that every such read fails
with a NotFound error. -/
theorem C9_counterexample :
    mapGet sC9.screenshots "a://b" = none
    ∧ readResource sC9 ("screenshot://" ++ "a://b")
        = Except.ok (ReadResult.blobContents ("screenshot://" ++ "a://b")
            "image/png" "PAYLOAD") :=
  ⟨rfl, rfl⟩

/-- C9 amended: for every identifier that is neither `console://logs`
nor a `screenshot://` identifier that resolves — via the handler
extraction `uri.split("://")[1]` — to a stored artifact name, the read
fails with the NotFound error.  The unstored-name condition is only
demanded of identifiers that actually start with `screenshot://`:
every other identifier (for example `artifact://a`, even with artifact
`a` stored) is rejected outright by the scheme test.  The read handler
performs no writes (its embedding is a pure function of the state). -/
theorem C9_amended (s : ServerState) (uri : String)
    (h1 : uri ≠ "console://logs")
    (h2 : leadsWith "screenshot://".data uri.data = true →
          ∀ nm, splitIdx1 uri = some nm → mapGet s.screenshots nm = none) :
    readResource s uri = Except.error ("Resource not found: " ++ uri) := by
  rw [readResource, if_neg h1]
  cases hpre : leadsWith "screenshot://".data uri.data with
  | false => simp [hpre]
  | true =>
    simp only [hpre, if_true]
    cases hix : splitIdx1 uri with
    | none => simp [hix]
    | some nm => simp [hix, h2 hpre nm hix]

theorem C9_amended_witness :
    readResource sC9 "artifact://a" = Except.error ("Resource not found: " ++ "artifact://a") :=
  C9_amended sC9 "artifact://a" (by decide) (fun hpre => absurd hpre (by decide))

/-- C2 counterexample: with a live session and a driver whose goto
rejects, dispatching `playwright_navigate` does not return an envelope
— the rejection escapes `handleToolCall` to the transport — refuting
the claim that navigate never lets a handler exception propagate past
the dispatch boundary. -/
theorem C2_counterexample :
    (handleToolCall dNavFail sLive "playwright_navigate"
        { url := some "https://example.com" }).2
      = Except.error "net::ERR_NAME_NOT_RESOLVED" := rfl

/-- C2 amended: the five commands whose handlers are wrapped in
try/catch (click, fill, select, hover, evaluate) always yield an
envelope, with isError true exactly when the guarded driver operation
(or the undefined-page TypeError) fails; but `playwright_navigate` and
`playwright_screenshot` have no try/catch, so a goto or viewport
failure escapes `handleToolCall` as an exception. -/
theorem C2_amended (d : Driver) (s : ServerState) (args : Args) (b : Nat)
    (hb : s.browser = some b) :
    (∀ name, name ∈ guardedNames →
      isOkEnv (handleToolCall d s name args).2 = true
      ∧ envIsError (handleToolCall d s name args).2 = guardedErrFlag d s.page args name)
    ∧ (∀ (g : Nat) (e : String), s.page = some g → d.goto args.url = Except.error e →
        (handleToolCall d s "playwright_navigate" args).2 = Except.error e)
    ∧ (∀ (g : Nat) (e : String), s.page = some g →
        d.setViewportSize (args.width.getD 800) (args.height.getD 600) = Except.error e →
        (handleToolCall d s "playwright_screenshot" args).2 = Except.error e) := by
  refine ⟨?_, ?_, ?_⟩
  · intro name hmem
    rw [handleToolCall_live hb]
    simp only [guardedNames, List.mem_cons, List.not_mem_nil, or_false] at hmem
    rcases hmem with rfl | rfl | rfl | rfl | rfl
    · rw [if_neg (by decide), if_neg (by decide), if_pos rfl]
      refine ⟨(clickCmd_guarded d s.page args s).1, ?_⟩
      rw [(clickCmd_guarded d s.page args s).2]
      cases s.page <;> simp [guardedErrFlag]
    · rw [if_neg (by decide), if_neg (by decide), if_neg (by decide), if_pos rfl]
      refine ⟨(fillCmd_guarded d s.page args s).1, ?_⟩
      rw [(fillCmd_guarded d s.page args s).2]
      cases s.page <;> simp [guardedErrFlag]
    · rw [if_neg (by decide), if_neg (by decide), if_neg (by decide), if_neg (by decide),
        if_pos rfl]
      refine ⟨(selectCmd_guarded d s.page args s).1, ?_⟩
      rw [(selectCmd_guarded d s.page args s).2]
      cases s.page <;> simp [guardedErrFlag]
    · rw [if_neg (by decide), if_neg (by decide), if_neg (by decide), if_neg (by decide),
        if_neg (by decide), if_pos rfl]
      refine ⟨(hoverCmd_guarded d s.page args s).1, ?_⟩
      rw [(hoverCmd_guarded d s.page args s).2]
      cases s.page <;> simp [guardedErrFlag]
    · rw [if_neg (by decide), if_neg (by decide), if_neg (by decide), if_neg (by decide),
        if_neg (by decide), if_neg (by decide), if_pos rfl]
      refine ⟨(evaluateCmd_guarded d s.page args s).1, ?_⟩
      rw [(evaluateCmd_guarded d s.page args s).2]
      cases s.page <;> simp [guardedErrFlag]
  · intro g e hp hg
    rw [handleToolCall_live hb, if_pos rfl, hp]
    simp [navigateCmd, hg]
  · intro g e hp hv
    rw [handleToolCall_live hb, if_neg (by decide), if_pos rfl, hp]
    simp [screenshotCmd, hv]

theorem C2_amended_witness :
    (∀ name, name ∈ guardedNames →
      isOkEnv (handleToolCall dAllOk sLive name noArgs).2 = true
      ∧ envIsError (handleToolCall dAllOk sLive name noArgs).2
          = guardedErrFlag dAllOk sLive.page noArgs name)
    ∧ (∀ (g : Nat) (e : String), sLive.page = some g →
        dAllOk.goto noArgs.url = Except.error e →
        (handleToolCall dAllOk sLive "playwright_navigate" noArgs).2 = Except.error e)
    ∧ (∀ (g : Nat) (e : String), sLive.page = some g →
        dAllOk.setViewportSize (noArgs.width.getD 800) (noArgs.height.getD 600)
            = Except.error e →
        (handleToolCall dAllOk sLive "playwright_screenshot" noArgs).2
            = Except.error e) :=
  C2_amended dAllOk sLive noArgs 0 rfl

/-- C6 counterexample: two successful capture-image calls under the
name `a://b` (a legal artifact name) store exactly one entry holding
the second payload, but reading the artifact identifier
`screenshot://a://b` fails with NotFound because the read handler
truncates the name at the first `://` — refuting the claim that for
every artifact name the read after two captures returns the second
payload. -/
theorem C6_counterexample :
    isOkEnv (handleToolCall dAllOk sLive "playwright_screenshot" sepArgs).2 = true
    ∧ envIsError (handleToolCall dAllOk sLive "playwright_screenshot" sepArgs).2 = false
    ∧ isOkEnv (handleToolCall dShot2 c6s1 "playwright_screenshot" sepArgs).2 = true
    ∧ envIsError (handleToolCall dShot2 c6s1 "playwright_screenshot" sepArgs).2 = false
    ∧ mapGet c6s2.screenshots "a://b" = some (encodeB64 [9, 9, 9])
    ∧ readResource c6s2 ("screenshot://" ++ "a://b")
        = Except.error ("Resource not found: " ++ ("screenshot://" ++ "a://b")) :=
  ⟨rfl, rfl, rfl, rfl, rfl, rfl⟩

/-- C6 amended: after two successful capture-image calls with the same
name, the store holds exactly one entry for that name with the second
payload (last-write-wins, unique keys preserved), and the resource list
contains exactly one entry for it; the read of the artifact identifier
returns the second payload provided the name does not contain `://`
(otherwise the read handler truncates the extracted name and the read
misses) and the captured bytes are nonempty (the driver contract: a
PNG is never zero bytes). -/
theorem C6_amended (d1 d2 : Driver) (s : ServerState) (b g : Nat) (nm : String)
    (a1 a2 : Args) (bs1 bs2 : List Nat)
    (hb : s.browser = some b) (hp : s.page = some g)
    (hnd : (mapKeys s.screenshots).Nodup)
    (hn1 : a1.name = some nm) (hs1 : a1.selector = none)
    (hn2 : a2.name = some nm) (hs2 : a2.selector = none)
    (hv1 : d1.setViewportSize (a1.width.getD 800) (a1.height.getD 600) = Except.ok ())
    (hq1 : d1.pageScreenshot = Except.ok bs1)
    (hv2 : d2.setViewportSize (a2.width.getD 800) (a2.height.getD 600) = Except.ok ())
    (hq2 : d2.pageScreenshot = Except.ok bs2) :
    isOkEnv (handleToolCall d1 s "playwright_screenshot" a1).2 = true
    ∧ envIsError (handleToolCall d1 s "playwright_screenshot" a1).2 = false
    ∧ isOkEnv (handleToolCall d2 (handleToolCall d1 s "playwright_screenshot" a1).1
          "playwright_screenshot" a2).2 = true
    ∧ envIsError (handleToolCall d2 (handleToolCall d1 s "playwright_screenshot" a1).1
          "playwright_screenshot" a2).2 = false
    ∧ (handleToolCall d2 (handleToolCall d1 s "playwright_screenshot" a1).1
          "playwright_screenshot" a2).1.screenshots
        = mapSet (mapSet s.screenshots nm (encodeB64 bs1)) nm (encodeB64 bs2)
    ∧ (listResources (handleToolCall d2 (handleToolCall d1 s "playwright_screenshot" a1).1
          "playwright_screenshot" a2).1).countP
        (fun e => e.uri == "screenshot://" ++ nm) = 1
    ∧ (containsSep nm.data = false → bs2 ≠ [] →
        readResource (handleToolCall d2 (handleToolCall d1 s "playwright_screenshot" a1).1
            "playwright_screenshot" a2).1 ("screenshot://" ++ nm)
          = Except.ok (ReadResult.blobContents ("screenshot://" ++ nm) "image/png"
              (encodeB64 bs2))) := by
  have hred1 : handleToolCall d1 s "playwright_screenshot" a1
      = screenshotCmd d1 (some g) a1 s := by
    rw [handleToolCall_live hb, if_neg (by decide), if_pos rfl, hp]
  have e1 := @screenshotCmd_ok d1 g a1 s nm bs1 hn1 hs1 hv1 hq1
  have hb1 : (screenshotCmd d1 (some g) a1 s).1.browser = some b := by
    rw [e1.2.1, hb]
  have hp1 : (screenshotCmd d1 (some g) a1 s).1.page = some g := by
    rw [e1.2.2.1, hp]
  have hred2 : handleToolCall d2 (screenshotCmd d1 (some g) a1 s).1
        "playwright_screenshot" a2
      = screenshotCmd d2 (some g) a2 (screenshotCmd d1 (some g) a1 s).1 := by
    rw [handleToolCall_live hb1, if_neg (by decide), if_pos rfl, hp1]
  have e2 := @screenshotCmd_ok d2 g a2 (screenshotCmd d1 (some g) a1 s).1 nm bs2
    hn2 hs2 hv2 hq2
  rw [hred1, hred2]
  have hscr2 : (screenshotCmd d2 (some g) a2 (screenshotCmd d1 (some g) a1 s).1).1.screenshots
      = mapSet (mapSet s.screenshots nm (encodeB64 bs1)) nm (encodeB64 bs2) := by
    rw [e2.1, e1.1]
  refine ⟨?_, ?_, ?_, ?_, hscr2, ?_, ?_⟩
  · rw [e1.2.2.2.2]; rfl
  · rw [e1.2.2.2.2]; rfl
  · rw [e2.2.2.2.2]; rfl
  · rw [e2.2.2.2.2]; rfl
  · rw [countP_listResources, hscr2]
    have hnd1 : (mapKeys (mapSet s.screenshots nm (encodeB64 bs1))).Nodup :=
      nodup_mapKeys_mapSet nm (encodeB64 bs1) hnd
    have hnd2 := nodup_mapKeys_mapSet nm (encodeB64 bs2) hnd1
    exact List.count_eq_one_of_mem hnd2 (mem_mapKeys_mapSet _ nm (encodeB64 bs2))
  · intro hnosep hbs2
    exact readResource_shot hnosep
      (by rw [hscr2]; exact mapGet_mapSet_self _ nm (encodeB64 bs2))
      (encodeB64_ne_empty hbs2)

theorem C6_amended_witness :
    isOkEnv (handleToolCall dAllOk sLive "playwright_screenshot" zeroArgs).2 = true
    ∧ envIsError (handleToolCall dAllOk sLive "playwright_screenshot" zeroArgs).2 = false
    ∧ isOkEnv (handleToolCall dShot2 (handleToolCall dAllOk sLive "playwright_screenshot"
          zeroArgs).1 "playwright_screenshot" zeroArgs).2 = true
    ∧ envIsError (handleToolCall dShot2 (handleToolCall dAllOk sLive "playwright_screenshot"
          zeroArgs).1 "playwright_screenshot" zeroArgs).2 = false
    ∧ (handleToolCall dShot2 (handleToolCall dAllOk sLive "playwright_screenshot"
          zeroArgs).1 "playwright_screenshot" zeroArgs).1.screenshots
        = mapSet (mapSet sLive.screenshots "x" (encodeB64 [1, 2, 3])) "x"
            (encodeB64 [9, 9, 9])
    ∧ (listResources (handleToolCall dShot2 (handleToolCall dAllOk sLive
          "playwright_screenshot" zeroArgs).1 "playwright_screenshot" zeroArgs).1).countP
        (fun e => e.uri == "screenshot://" ++ "x") = 1
    ∧ (containsSep "x".data = false → ([9, 9, 9] : List Nat) ≠ [] →
        readResource (handleToolCall dShot2 (handleToolCall dAllOk sLive
            "playwright_screenshot" zeroArgs).1 "playwright_screenshot" zeroArgs).1
            ("screenshot://" ++ "x")
          = Except.ok (ReadResult.blobContents ("screenshot://" ++ "x") "image/png"
              (encodeB64 [9, 9, 9]))) :=
  C6_amended dAllOk dShot2 sLive 0 0 "x" zeroArgs zeroArgs [1, 2, 3] [9, 9, 9]
    rfl rfl (by decide) rfl rfl rfl rfl rfl rfl rfl rfl

/-- C4 counterexample: in the interleaving model of `ensureBrowser`,
two callers that both run their `!browser` check before either launch
has resolved (schedule 0,1,0,1,0,1,0,1 from a fresh two-caller state)
launch the engine twice and end up observing different pages — refuting
the claim that concurrent first use performs session creation exactly
once with all callers observing the same completed session. -/
theorem C4_counterexample :
    (coRun (coInit 2) [0, 1, 0, 1, 0, 1, 0, 1]).launches = 2
    ∧ ((coRun (coInit 2) [0, 1, 0, 1, 0, 1, 0, 1]).callers[0]?).map CoCaller.ret
        ≠ ((coRun (coInit 2) [0, 1, 0, 1, 0, 1, 0, 1]).callers[1]?).map CoCaller.ret := by
  decide

/-- C4 amended: a caller whose initial check finds the session variable
already assigned performs no engine launch and immediately observes the
existing session; creation is performed exactly once only when no other
caller checks while a creation is in flight — in particular, under the
sequential schedule where the first caller completes before the second
starts, there is exactly one launch and both callers observe the same
page.  But the check and the assignment are separated by an await, so
interleaved first-use checks each launch the engine (see the
counterexample). -/
theorem C4_amended :
    (∀ (s : CoState) (i b : Nat) (c : CoCaller),
      s.browser = some b → s.callers[i]? = some c → c.pc = CoPC.start →
      (coStep s i).launches = s.launches
      ∧ (coStep s i).browser = s.browser
      ∧ (coStep s i).callers[i]? = some { pc := CoPC.done, ret := some s.page })
    ∧ (coRun (coInit 2) [0, 0, 0, 0, 1]).launches = 1
    ∧ ((coRun (coInit 2) [0, 0, 0, 0, 1]).callers[0]?).map CoCaller.ret
        = ((coRun (coInit 2) [0, 0, 0, 0, 1]).callers[1]?).map CoCaller.ret := by
  refine ⟨?_, by decide, by decide⟩
  intro s i b c hb hc hpc
  simp only [coStep, hc, hpc, hb]
  refine ⟨rfl, hb, ?_⟩
  simp [coSet, List.getElem?_set_self', hc]

theorem C4_amended_witness :
    (coStep (coRun (coInit 2) [0, 0, 0, 0]) 1).launches
        = (coRun (coInit 2) [0, 0, 0, 0]).launches
    ∧ (coStep (coRun (coInit 2) [0, 0, 0, 0]) 1).browser
        = (coRun (coInit 2) [0, 0, 0, 0]).browser
    ∧ (coStep (coRun (coInit 2) [0, 0, 0, 0]) 1).callers[1]?
        = some { pc := CoPC.done, ret := some (coRun (coInit 2) [0, 0, 0, 0]).page } :=
  C4_amended.1 (coRun (coInit 2) [0, 0, 0, 0]) 1 0 { pc := CoPC.start, ret := none }
    (by decide) (by decide) rfl
